import Mathlib

/-!
Shallow embedding of the extraction pipeline of src/App.py (IFC to CSV volume
extractor) and verification of its specification claims.

Modelling conventions, each traced to the Python source:
* An IFC entity is a record of exactly the attributes the pipeline reads.
  Attribute access in ifcopenshell returns None for an unset schema attribute,
  so every attribute is an Option.  Python truthiness of strings (None and ""
  are falsy in the chains written with the or operator, lines 21, 76-77,
  105-106) is captured by pyOrStr.
* by_type is subtype inclusive (an IfcWallStandardCase instance is returned
  both for the tag IfcWall and for IfcWallStandardCase), which the embedding
  captures by giving every entity its most specific type tag (what is_a()
  returns, line 75/104) together with the list of its supertype tags.
* Quantity values are QVal: num for a value float() accepts, nonNumeric for a
  value on which float() raises (the error source inside the try of
  get_volume_from_quantities, lines 28-50).  The two-level Option of
  volumeValueAttr models hasattr (outer level, lines 38-41) versus the
  attribute being None (inner level, line 43).
* Code that can raise a Python exception is translated to Except Unit;
  build_storey_map can raise at line 21 when RelatingStructure is absent
  (None has neither Name nor LongName nor GlobalId), and extract_elements
  (line 61) does not catch that, so it is Except-valued as well.
* Only the GlobalId of each entity in RelatedElements is read (line 23), so a
  containment relationship stores that list of optional identities directly.
* The pandas step (lines 118-122): pd.DataFrame of an empty row list is a
  DataFrame with no columns, so the column access df of Volume_m3 on line 120
  (evaluated on the right-hand side before the assignment) raises KeyError
  whenever zero rows were collected; nothing catches it, so extract_elements
  errors on an empty row list.  On a nonempty row list, to_numeric with
  coercion is the identity here because Volume_m3 entries are already
  numeric-or-null, and sort_values on the three columns IfcClass, Level,
  Name is a stable lexicographic sort with nulls last (pandas uses a stable
  lexsort for multi-key sorts with the default na_position of last),
  modelled by insertionSort over rowLe below.
-/

namespace IfcApp

/-- Value carried by a quantity attribute: a numeric value, or a malformed
value on which the float() conversion at line 47 raises. -/
inductive QVal where
  | num (v : ℚ)
  | nonNumeric
deriving DecidableEq

/-- One entry of an IfcElementQuantity's Quantities list (lines 33-41).
volumeValueAttr and volumeAttr are two-level: the outer Option is hasattr,
the inner Option is whether the attribute value is None. -/
structure Quantity where
  isVolumeQuantity : Bool
  volumeValueAttr : Option (Option QVal)
  volumeAttr : Option (Option QVal)
deriving DecidableEq

/-- The RelatingPropertyDefinition target (lines 31-33). -/
structure PropDef where
  isElementQuantity : Bool
  quantities : List Quantity
deriving DecidableEq

/-- One IsDefinedBy relationship of an element (lines 30-31). -/
structure DefRel where
  relatingPropertyDefinition : Option PropDef
deriving DecidableEq

/-- A model entity with exactly the attributes the pipeline reads
(lines 74-77, 100-107).  ifcType is what is_a() returns; superTypes are the
further tags the entity answers to in by_type queries. -/
structure Entity where
  globalId : Option String
  ifcType : String
  superTypes : List String
  nameAttr : Option String
  longNameAttr : Option String
  objectTypeAttr : Option String
  predefinedTypeAttr : Option String
  isDefinedBy : List DefRel
deriving DecidableEq

/-- A relating spatial structure as read at line 21. -/
structure Storey where
  nameAttr : Option String
  longNameAttr : Option String
  globalId : Option String
deriving DecidableEq

/-- An IfcRelContainedInSpatialStructure record (lines 19-23).  Only the
GlobalId of each related element is read, so just those are stored.
relatingStructure is none when the attribute is unset in the file. -/
structure ContainmentRel where
  relatingStructure : Option Storey
  relatedGlobalIds : List (Option String)
deriving DecidableEq

/-- The model handle: the entity pool, the containment relationship records,
and the length-unit scale that calculate_unit_scale returns at line 45. -/
structure Model where
  entities : List Entity
  containmentRels : List ContainmentRel
  lengthScale : ℚ
deriving DecidableEq

/-- Python truthy-or for an optional string against a default: None and the
empty string are falsy (the or chains at lines 21, 76-77, 105-106). -/
def pyOrStr (a : Option String) (dflt : String) : String :=
  match a with
  | some s => if s = ("") then dflt else s
  | none => dflt

/-- How an optional identity renders inside an f-string (line 21): Python
formats None as the four characters None. -/
def pyShowOpt : Option String → String
  | none => ("None")
  | some s => s

/-- Whether an entity is returned by a by_type query for tag t:
its own declared type or any of its supertype tags matches. -/
def matchesType (e : Entity) (t : String) : Bool :=
  e.ifcType == t || e.superTypes.contains t

/-- model.by_type(t): all entities answering to tag t, in model order. -/
def by_type (m : Model) (t : String) : List Entity :=
  m.entities.filter (fun e => matchesType e t)

/-- Label of a relating structure (line 21): Name, else LongName, else the
synthesized fallback built from the GlobalId. -/
def storeyLabel (s : Storey) : String :=
  pyOrStr s.nameAttr (pyOrStr s.longNameAttr (("Storey_") ++ pyShowOpt s.globalId))

/-- The storey map: element identity (possibly null) to storey label. -/
def SMap : Type := Option String → Option String

/-- Dictionary assignment el_to_storey[gid] = label (line 23). -/
def smapUpdate (sm : SMap) (g : Option String) (label : String) : SMap :=
  fun k => if k = g then some label else sm k

/-- The inner loop of build_storey_map (lines 22-23): assign the label to
every related identity in order. -/
def insertRelated (label : String) (gs : List (Option String)) (sm : SMap) : SMap :=
  gs.foldl (fun a g => smapUpdate a g label) sm

/-- The relationship scan of build_storey_map (lines 19-23).  When
RelatingStructure is absent, line 21 evaluates None.GlobalId after both
getattr fallbacks return None, raising AttributeError: Except.error. -/
def build_storey_map_go : List ContainmentRel → SMap → Except Unit SMap
  | [], sm => Except.ok sm
  | rel :: rest, sm =>
    match rel.relatingStructure with
    | none => Except.error ()
    | some s => build_storey_map_go rest (insertRelated (storeyLabel s) rel.relatedGlobalIds sm)

/-- build_storey_map (lines 16-24). -/
def build_storey_map (m : Model) : Except Unit SMap :=
  build_storey_map_go m.containmentRels (fun _ => none)

/-- The val computed at lines 37-41: the VolumeValue attribute if it exists
(even when its value is None), else the Volume attribute if it exists. -/
def qValOf (q : Quantity) : Option QVal :=
  match q.volumeValueAttr with
  | some v => v
  | none =>
    match q.volumeAttr with
    | some v => v
    | none => none

/-- The inner quantity loop (lines 33-48): first volume quantity with a
non-None value returns val times scale cubed; a non-numeric val makes
float() raise (error); otherwise keep scanning. -/
def scanQuantities (m : Model) : List Quantity → Except Unit (Option ℚ)
  | [] => Except.ok none
  | q :: rest =>
    if q.isVolumeQuantity then
      match qValOf q with
      | some (QVal.num v) => Except.ok (some (v * m.lengthScale ^ 3))
      | some QVal.nonNumeric => Except.error ()
      | none => scanQuantities m rest
    else scanQuantities m rest

/-- The outer IsDefinedBy loop (lines 30-48): only property definitions that
exist and are IfcElementQuantity are scanned; the first hit returns. -/
def scanDefRels (m : Model) : List DefRel → Except Unit (Option ℚ)
  | [] => Except.ok none
  | rel :: rest =>
    match rel.relatingPropertyDefinition with
    | some pd =>
      if pd.isElementQuantity then
        match scanQuantities m pd.quantities with
        | Except.error e => Except.error e
        | Except.ok (some v) => Except.ok (some v)
        | Except.ok none => scanDefRels m rest
      else scanDefRels m rest
    | none => scanDefRels m rest

/-- get_volume_from_quantities (lines 26-51): the whole traversal sits in a
try block whose except converts any error to None (lines 49-51). -/
def get_volume_from_quantities (e : Entity) (m : Model) : Option ℚ :=
  match scanDefRels m e.isDefinedBy with
  | Except.ok v => v
  | Except.error _ => none

/-- fallback_geometry_volume (lines 53-57): the documented stub. -/
def fallback_geometry_volume (_e : Entity) : Option ℚ := none

/-- One output record (the row dicts at lines 85-92 and 109-116). -/
structure Row where
  GlobalId : Option String
  ifcClassName : String
  TypeName : String
  Name : String
  Level : Option String
  Volume_m3 : Option ℚ
deriving DecidableEq

/-- The curated allowlist (lines 66-70). -/
def candidate_types : List String :=
  [("IfcWall"), ("IfcWallStandardCase"), ("IfcSlab"), ("IfcFloor"), ("IfcColumn"),
   ("IfcBeam"), ("IfcRoof"), ("IfcStair"), ("IfcFooting"), ("IfcCovering"),
   ("IfcBeamStandard"), ("IfcPlate"), ("IfcMember"), ("IfcPile"), ("IfcOpeningElement")]

/-- Row built in the curated sweep (lines 73-92); the geometry fallback is
consulted when quantities yield None (lines 80-82). -/
def mkCuratedRow (m : Model) (sm : SMap) (e : Entity) : Row :=
  { GlobalId := e.globalId
    ifcClassName := e.ifcType
    TypeName := pyOrStr e.objectTypeAttr (pyOrStr e.predefinedTypeAttr (""))
    Name := pyOrStr e.nameAttr (pyOrStr e.longNameAttr (""))
    Level := sm e.globalId
    Volume_m3 :=
      match get_volume_from_quantities e m with
      | none => fallback_geometry_volume e
      | some v => some v }

/-- The curated sweep (lines 72-92): one row appended per enumerated entity,
with no duplicate check. -/
def curatedSweepRows (m : Model) (sm : SMap) : List Row :=
  candidate_types.flatMap (fun t => (by_type m t).map (fun e => mkCuratedRow m sm e))

/-- Python str.startswith: prefix test on the sequence of code points. -/
def pyStartsWith (s p : String) : Bool :=
  p.data.isPrefixOf s.data

/-- The type-based skip of the catch-all sweep (line 98):
el.is_a().startswith for IfcBuilding, IfcSite, IfcBuildingStorey. -/
def isSpatialSkipped (e : Entity) : Bool :=
  pyStartsWith e.ifcType ("IfcBuilding") || pyStartsWith e.ifcType ("IfcSite") ||
    pyStartsWith e.ifcType ("IfcBuildingStorey")

/-- Row built in the catch-all sweep (lines 104-116); note the geometry
fallback is not consulted here. -/
def mkCatchAllRow (m : Model) (sm : SMap) (e : Entity) : Row :=
  { GlobalId := e.globalId
    ifcClassName := e.ifcType
    TypeName := pyOrStr e.objectTypeAttr (pyOrStr e.predefinedTypeAttr (""))
    Name := pyOrStr e.nameAttr (pyOrStr e.longNameAttr (""))
    Level := sm e.globalId
    Volume_m3 := get_volume_from_quantities e m }

/-- The membership check at line 102: any(r[GlobalId] == gid for r in rows).
Python None == None is True, matching Option equality. -/
def hasGlobalId (rows : List Row) (g : Option String) : Bool :=
  rows.any (fun r => r.GlobalId == g)

/-- The catch-all sweep over IfcProduct entities (lines 96-116). -/
def catchAllSweep (m : Model) (sm : SMap) : List Row → List Entity → List Row
  | rows, [] => rows
  | rows, e :: rest =>
    if isSpatialSkipped e then catchAllSweep m sm rows rest
    else if hasGlobalId rows e.globalId then catchAllSweep m sm rows rest
    else catchAllSweep m sm (rows ++ [mkCatchAllRow m sm e]) rest

/-- All rows before table assembly: curated sweep then catch-all sweep. -/
def allRows (m : Model) (sm : SMap) : List Row :=
  catchAllSweep m sm (curatedSweepRows m sm) (by_type m ("IfcProduct"))

/-- Sort key component for a string column: the code points, compared
lexicographically exactly as pandas compares Python strings. -/
def strKey (s : String) : List ℕ := s.data.map Char.toNat

/-- Sort key component for the nullable Level column: null sorts last
(na_position defaults to last in sort_values). -/
def levelKey : Option String → WithTop (List ℕ)
  | none => ⊤
  | some s => (strKey s : WithTop (List ℕ))

/-- Full lexicographic key of the three-column sort at line 122. -/
abbrev RowKey : Type := Lex ((List ℕ) × (Lex ((WithTop (List ℕ)) × (List ℕ))))

/-- Key of a row for the sort by IfcClass, Level, Name. -/
def rowKey (r : Row) : RowKey :=
  toLex (strKey r.ifcClassName, toLex (levelKey r.Level, strKey r.Name))

/-- The sort relation of df.sort_values at line 122. -/
def rowLe (a b : Row) : Prop := rowKey a ≤ rowKey b

instance : DecidableRel rowLe := fun a b => inferInstanceAs (Decidable (rowKey a ≤ rowKey b))

instance : IsTotal Row rowLe := ⟨fun a b => le_total (rowKey a) (rowKey b)⟩

instance : IsTrans Row rowLe := ⟨fun _ _ _ h1 h2 => le_trans h1 h2⟩

/-- The stable ascending sort of line 122 (pandas multi-key sort_values is a
stable lexsort; any stable sort by the same total preorder yields the same
sequence, here insertion sort). -/
def sortRows (rows : List Row) : List Row := List.insertionSort rowLe rows

/-- extract_elements (lines 59-123).  The storey-map failure propagates
(nothing catches it).  With zero collected rows, pd.DataFrame(rows) has no
columns and the column access at line 120 raises KeyError, which also
propagates: the empty case errors.  With at least one row, the numeric
coercion is the identity on values that are already numeric-or-null, and
the table is the stable sort of the rows. -/
def extract_elements (m : Model) : Except Unit (List Row) :=
  match build_storey_map m with
  | Except.error e => Except.error e
  | Except.ok sm =>
    match allRows m sm with
    | [] => Except.error ()
    | r :: rest => Except.ok (sortRows (r :: rest))

/-- The non-null-volume count at line 148: df[Volume_m3].notna().sum(). -/
def vols_present (rows : List Row) : ℕ :=
  (rows.filter (fun r => r.Volume_m3.isSome)).length

/-! Characterization of the quantity scan: the values it would read, in
traversal order. -/

/-- Values (in traversal order) of the volume quantities of one Quantities
list whose value field exists and is non-None. -/
def volQValsOfQuantities (qs : List Quantity) : List QVal :=
  (qs.filter (fun q => q.isVolumeQuantity)).filterMap qValOf

/-- Values contributed by one IsDefinedBy relationship. -/
def relVolQVals (rel : DefRel) : List QVal :=
  match rel.relatingPropertyDefinition with
  | some pd => if pd.isElementQuantity then volQValsOfQuantities pd.quantities else []
  | none => []

/-- All volume quantity values reachable from an element, in traversal
order of its IsDefinedBy relationships. -/
def volumeQVals (e : Entity) : List QVal :=
  e.isDefinedBy.flatMap relVolQVals

lemma scanQuantities_eq (m : Model) (qs : List Quantity) :
    scanQuantities m qs =
      match (volQValsOfQuantities qs).head? with
      | some (QVal.num v) => Except.ok (some (v * m.lengthScale ^ 3))
      | some QVal.nonNumeric => Except.error ()
      | none => Except.ok none := by
  induction qs with
  | nil => rfl
  | cons q rest ih =>
    by_cases hv : q.isVolumeQuantity
    · cases hq : qValOf q with
      | none => simp [scanQuantities, volQValsOfQuantities, List.filter_cons, hv, hq] at ih ⊢; exact ih
      | some val =>
        cases val with
        | num v => simp [scanQuantities, volQValsOfQuantities, List.filter_cons, hv, hq]
        | nonNumeric => simp [scanQuantities, volQValsOfQuantities, List.filter_cons, hv, hq]
    · simp [scanQuantities, volQValsOfQuantities, List.filter_cons, hv] at ih ⊢; exact ih

lemma scanDefRels_eq (m : Model) (rels : List DefRel) :
    scanDefRels m rels =
      match (rels.flatMap relVolQVals).head? with
      | some (QVal.num v) => Except.ok (some (v * m.lengthScale ^ 3))
      | some QVal.nonNumeric => Except.error ()
      | none => Except.ok none := by
  induction rels with
  | nil => rfl
  | cons rel rest ih =>
    cases hp : rel.relatingPropertyDefinition with
    | none => simp [scanDefRels, relVolQVals, hp] at ih ⊢; exact ih
    | some pd =>
      by_cases hq : pd.isElementQuantity
      · cases hl : volQValsOfQuantities pd.quantities with
        | nil =>
          simp [scanDefRels, hp, hq, scanQuantities_eq, relVolQVals, hl] at ih ⊢; exact ih
        | cons val tail =>
          cases val with
          | num v => simp [scanDefRels, hp, hq, scanQuantities_eq, relVolQVals, hl]
          | nonNumeric => simp [scanDefRels, hp, hq, scanQuantities_eq, relVolQVals, hl]
      · simp [scanDefRels, relVolQVals, hp, hq] at ih ⊢; exact ih

/-- The full characterization of get_volume_from_quantities: the first value
found in traversal order decides the result; a non-numeric first value (a
float() failure, caught at lines 49-50) and an absent value both give None. -/
lemma get_volume_eq (e : Entity) (m : Model) :
    get_volume_from_quantities e m =
      match (volumeQVals e).head? with
      | some (QVal.num v) => some (v * m.lengthScale ^ 3)
      | some QVal.nonNumeric => none
      | none => none := by
  unfold get_volume_from_quantities volumeQVals
  rw [scanDefRels_eq]
  cases h : (e.isDefinedBy.flatMap relVolQVals).head? with
  | none => simp
  | some val => cases val with
    | num v => simp
    | nonNumeric => simp

/-! Invariants of the catch-all sweep. -/

lemma hasGlobalId_false_iff (rows : List Row) (g : Option String) :
    hasGlobalId rows g = false ↔ ∀ r ∈ rows, r.GlobalId ≠ g := by
  simp [hasGlobalId, List.any_eq_false]

/-- The catch-all sweep only appends: the result is the accumulated rows
followed by fresh rows, each built by mkCatchAllRow from a swept entity,
whose identities are absent from the accumulated rows and pairwise
distinct among themselves. -/
lemma catchAllSweep_append (m : Model) (sm : SMap) :
    ∀ (es : List Entity) (rows : List Row),
      ∃ extra : List Row,
        catchAllSweep m sm rows es = rows ++ extra ∧
        (∀ r ∈ extra, ∀ r2 ∈ rows, r.GlobalId ≠ r2.GlobalId) ∧
        extra.Pairwise (fun a b => a.GlobalId ≠ b.GlobalId) ∧
        (∀ r ∈ extra, ∃ e ∈ es, r = mkCatchAllRow m sm e) := by
  intro es
  induction es with
  | nil =>
    intro rows
    exact ⟨[], by simp [catchAllSweep], by simp, List.Pairwise.nil, by simp⟩
  | cons e rest ih =>
    intro rows
    by_cases hs : isSpatialSkipped e
    · obtain ⟨extra, h1, h2, h3, h4⟩ := ih rows
      refine ⟨extra, by simp [catchAllSweep, hs, h1], h2, h3, ?_⟩
      intro r hr
      obtain ⟨e2, he2, hre⟩ := h4 r hr
      exact ⟨e2, List.mem_cons_of_mem _ he2, hre⟩
    · by_cases hg : hasGlobalId rows e.globalId
      · obtain ⟨extra, h1, h2, h3, h4⟩ := ih rows
        refine ⟨extra, by simp [catchAllSweep, hs, hg, h1], h2, h3, ?_⟩
        intro r hr
        obtain ⟨e2, he2, hre⟩ := h4 r hr
        exact ⟨e2, List.mem_cons_of_mem _ he2, hre⟩
      · obtain ⟨extra, h1, h2, h3, h4⟩ := ih (rows ++ [mkCatchAllRow m sm e])
        have hfresh : ∀ r2 ∈ rows, r2.GlobalId ≠ e.globalId :=
          (hasGlobalId_false_iff rows e.globalId).mp (Bool.not_eq_true _ ▸ eq_false_of_ne_true hg)
        refine ⟨mkCatchAllRow m sm e :: extra, ?_, ?_, ?_, ?_⟩
        · simp only [catchAllSweep, hs, hg, if_false, Bool.false_eq_true, if_neg, h1]
          simp [h1, List.append_assoc]
        · intro r hr r2 hr2
          rcases List.mem_cons.mp hr with hre | hrex
          · subst hre
            exact fun hcontra => hfresh r2 hr2 (by simpa [mkCatchAllRow] using hcontra.symm)
          · exact h2 r hrex r2 (List.mem_append_left _ hr2)
        · refine List.Pairwise.cons ?_ h3
          intro b hb
          have := h2 b hb (mkCatchAllRow m sm e) (List.mem_append_right _ (List.mem_singleton_self _))
          exact fun hcontra => this hcontra.symm
        · intro r hr
          rcases List.mem_cons.mp hr with hre | hrex
          · exact ⟨e, List.mem_cons_self _ _, hre⟩
          · obtain ⟨e2, he2, hre⟩ := h4 r hrex
            exact ⟨e2, List.mem_cons_of_mem _ he2, hre⟩

/-- Once any accumulated row has a null identity, the catch-all sweep adds
no further null-identity rows (the dedup check compares raw identities and
Python None equals None). -/
lemma catchAllSweep_filter_none (m : Model) (sm : SMap) :
    ∀ (es : List Entity) (rows : List Row),
      (∃ r ∈ rows, r.GlobalId = none) →
      (catchAllSweep m sm rows es).filter (fun r => r.GlobalId.isNone) =
        rows.filter (fun r => r.GlobalId.isNone) := by
  intro es
  induction es with
  | nil => intro rows _; rfl
  | cons e rest ih =>
    intro rows hnull
    by_cases hs : isSpatialSkipped e
    · simpa [catchAllSweep, hs] using ih rows hnull
    · by_cases hg : hasGlobalId rows e.globalId
      · simpa [catchAllSweep, hs, hg] using ih rows hnull
      · have hfresh : ∀ r2 ∈ rows, r2.GlobalId ≠ e.globalId :=
          (hasGlobalId_false_iff rows e.globalId).mp (eq_false_of_ne_true hg)
        obtain ⟨r0, hr0, hr0n⟩ := hnull
        have hne : e.globalId ≠ none := by
          intro hcontra
          exact hfresh r0 hr0 (hr0n.trans hcontra.symm)
        have hrow : (mkCatchAllRow m sm e).GlobalId.isNone = false := by
          cases hgid : e.globalId with
          | none => exact absurd hgid hne
          | some s => simp [mkCatchAllRow, hgid]
        have step : catchAllSweep m sm rows (e :: rest) =
            catchAllSweep m sm (rows ++ [mkCatchAllRow m sm e]) rest := by
          simp [catchAllSweep, hs, hg]
        rw [step, ih (rows ++ [mkCatchAllRow m sm e]) ⟨r0, List.mem_append_left _ hr0, hr0n⟩]
        simp [List.filter_append, hrow]

/-- Shape of curated-sweep rows: each is mkCuratedRow of an allowlisted
entity. -/
lemma curated_rows_shape {m : Model} {sm : SMap} {r : Row}
    (h : r ∈ curatedSweepRows m sm) : ∃ e : Entity, r = mkCuratedRow m sm e := by
  simp only [curatedSweepRows, List.mem_flatMap, List.mem_map] at h
  obtain ⟨t, _, e, _, hre⟩ := h
  exact ⟨e, hre.symm⟩

/-- Every entity enumerated under an allowlisted tag contributes its row:
the curated sweep performs no duplicate or null-identity check. -/
lemma mem_curatedSweepRows (m : Model) (sm : SMap) (t : String) (e : Entity)
    (ht : t ∈ candidate_types) (he : e ∈ by_type m t) :
    mkCuratedRow m sm e ∈ curatedSweepRows m sm := by
  simp only [curatedSweepRows, List.mem_flatMap, List.mem_map]
  exact ⟨t, ht, e, he, rfl⟩

lemma curatedSweepRows_length (m : Model) (sm : SMap) :
    (curatedSweepRows m sm).length =
      (candidate_types.map (fun t => (by_type m t).length)).sum := by
  simp [curatedSweepRows, Function.comp_def]

/-- Any row of the final pre-sort sequence is a curated row or a catch-all
row. -/
lemma allRows_shape {m : Model} {sm : SMap} {r : Row} (h : r ∈ allRows m sm) :
    (∃ e : Entity, r = mkCuratedRow m sm e) ∨ (∃ e : Entity, r = mkCatchAllRow m sm e) := by
  obtain ⟨extra, h1, _, _, h4⟩ := catchAllSweep_append m sm (by_type m ("IfcProduct")) (curatedSweepRows m sm)
  rw [allRows, h1] at h
  rcases List.mem_append.mp h with hc | he
  · exact Or.inl (curated_rows_shape hc)
  · obtain ⟨e2, _, hre⟩ := h4 r he
    exact Or.inr ⟨e2, hre⟩

/-! Storey-map lemmas. -/

lemma build_storey_map_go_ok :
    ∀ (rels : List ContainmentRel) (sm : SMap),
      (∀ rel ∈ rels, rel.relatingStructure ≠ none) →
      ∃ sm2, build_storey_map_go rels sm = Except.ok sm2 := by
  intro rels
  induction rels with
  | nil => intro sm _; exact ⟨sm, rfl⟩
  | cons rel rest ih =>
    intro sm h
    cases hs : rel.relatingStructure with
    | none => exact absurd hs (h rel (List.mem_cons_self _ _))
    | some s =>
      obtain ⟨sm2, h2⟩ := ih (insertRelated (storeyLabel s) rel.relatedGlobalIds sm)
        (fun r hr => h r (List.mem_cons_of_mem _ hr))
      exact ⟨sm2, by simp [build_storey_map_go, hs, h2]⟩

lemma insertRelated_lookup :
    ∀ (gs : List (Option String)) (label : String) (sm : SMap) (g : Option String),
      insertRelated label gs sm g = if gs.contains g then some label else sm g := by
  intro gs
  induction gs with
  | nil => intro label sm g; simp [insertRelated]
  | cons x xs ih =>
    intro label sm g
    have step : insertRelated label (x :: xs) sm = insertRelated label xs (smapUpdate sm x label) := rfl
    rw [step, ih]
    by_cases hx : g = x
    · subst hx
      by_cases hxs : xs.contains g <;> simp [smapUpdate, hxs]
    · have : (x == g) = false := by simp [beq_eq_false_iff_ne]; exact fun hc => hx hc.symm
      by_cases hxs : xs.contains g <;> simp [smapUpdate, hxs, hx, this]

/-- Lookup in the finished storey map: the label of the last containment
relationship (in scan order) whose related list mentions the identity wins;
identities never mentioned keep the base value. -/
lemma build_storey_map_go_lookup :
    ∀ (rels : List ContainmentRel) (sm0 sm : SMap) (g : Option String),
      build_storey_map_go rels sm0 = Except.ok sm →
      sm g = match rels.reverse.find? (fun rel => rel.relatedGlobalIds.contains g) with
        | some rel => rel.relatingStructure.map storeyLabel
        | none => sm0 g := by
  intro rels
  induction rels with
  | nil =>
    intro sm0 sm g h
    cases h
    rfl
  | cons rel rest ih =>
    intro sm0 sm g h
    cases hs : rel.relatingStructure with
    | none => rw [build_storey_map_go, hs] at h; cases h
    | some s =>
      rw [build_storey_map_go, hs] at h
      have hrec := ih (insertRelated (storeyLabel s) rel.relatedGlobalIds sm0) sm g h
      have happ : (rel :: rest).reverse = rest.reverse ++ [rel] := by simp
      rw [happ, List.find?_append]
      cases hf : rest.reverse.find? (fun r => r.relatedGlobalIds.contains g) with
      | some r2 => rw [hf] at hrec; simpa using hrec
      | none =>
        rw [hf] at hrec
        rw [hrec, insertRelated_lookup]
        by_cases hc : g ∈ rel.relatedGlobalIds
        · simp [hc, hs]
        · simp [hc]

/-- Levels in constructed rows always come from the storey-map lookup of the
row's own identity. -/
lemma allRows_level (m : Model) (sm : SMap) :
    ∀ r ∈ allRows m sm, r.Level = sm r.GlobalId := by
  intro r hr
  rcases allRows_shape hr with ⟨e, hre⟩ | ⟨e, hre⟩ <;> subst hre <;> rfl

/-! Sort lemmas: sortedness, permutation, and stability on the three-column
key. -/

/-- The observable three-column sort key of a row. -/
def sortKeyTriple (r : Row) : String × Option String × String :=
  (r.ifcClassName, r.Level, r.Name)

lemma rowKey_congr {a b : Row} (h : sortKeyTriple a = sortKeyTriple b) :
    rowKey a = rowKey b := by
  unfold rowKey
  rw [show a.ifcClassName = b.ifcClassName from congrArg (fun p => p.1) h,
    show a.Level = b.Level from congrArg (fun p => p.2.1) h,
    show a.Name = b.Name from congrArg (fun p => p.2.2) h]

lemma sortRows_sorted (l : List Row) : List.Sorted rowLe (sortRows l) :=
  List.sorted_insertionSort rowLe l

lemma sortRows_perm (l : List Row) : (sortRows l).Perm l :=
  List.perm_insertionSort rowLe l

lemma rowLe_of_triple_eq {a b : Row} (h : sortKeyTriple a = sortKeyTriple b) :
    rowLe a b :=
  le_of_eq (rowKey_congr h)

lemma filter_triple_orderedInsert (k : String × Option String × String) (x : Row) :
    ∀ l : List Row,
      (List.orderedInsert rowLe x l).filter (fun r => decide (sortKeyTriple r = k)) =
        if sortKeyTriple x = k then
          x :: l.filter (fun r => decide (sortKeyTriple r = k))
        else l.filter (fun r => decide (sortKeyTriple r = k)) := by
  intro l
  induction l with
  | nil =>
    by_cases hx : sortKeyTriple x = k <;> simp [List.orderedInsert, hx]
  | cons y ys ih =>
    by_cases hle : rowLe x y
    · by_cases hx : sortKeyTriple x = k <;>
        simp [List.orderedInsert, hle, List.filter_cons, hx]
    · have step : List.orderedInsert rowLe x (y :: ys) = y :: List.orderedInsert rowLe x ys := by
        simp [List.orderedInsert, hle]
      by_cases hx : sortKeyTriple x = k
      · have hy : ¬ sortKeyTriple y = k := by
          intro hy
          exact hle (rowLe_of_triple_eq (hx.trans hy.symm))
        rw [step]
        simp [List.filter_cons, hy, hx, ih]
      · rw [step]
        by_cases hy : sortKeyTriple y = k <;> simp [List.filter_cons, hy, hx, ih]

/-- Stability of the sort on the three-column key: among rows sharing one
concrete key, the sorted output preserves the pre-sort order exactly. -/
lemma filter_triple_sortRows (l : List Row) (k : String × Option String × String) :
    (sortRows l).filter (fun r => decide (sortKeyTriple r = k)) =
      l.filter (fun r => decide (sortKeyTriple r = k)) := by
  induction l with
  | nil => rfl
  | cons x xs ih =>
    have step : sortRows (x :: xs) = List.orderedInsert rowLe x (sortRows xs) := rfl
    rw [step, filter_triple_orderedInsert]
    by_cases hx : sortKeyTriple x = k <;> simp [List.filter_cons, hx, ih]

/-! Concrete witness and counterexample inputs. -/

/-- A wall entity whose declared type answers to two allowlist tags: by_type
returns an IfcWallStandardCase instance both for IfcWall and for
IfcWallStandardCase. -/
def dupWallEntity : Entity :=
  { globalId := some ("W1")
    ifcType := ("IfcWallStandardCase")
    superTypes := [("IfcWall"), ("IfcBuildingElement"), ("IfcElement"), ("IfcProduct")]
    nameAttr := some ("Wall-1")
    longNameAttr := none
    objectTypeAttr := none
    predefinedTypeAttr := none
    isDefinedBy := [] }

def dupWallModel : Model :=
  { entities := [dupWallEntity], containmentRels := [], lengthScale := 1 }

def dupWallRow : Row :=
  { GlobalId := some ("W1"), ifcClassName := ("IfcWallStandardCase"), TypeName := ("")
    Name := ("Wall-1"), Level := none, Volume_m3 := none }

/-- The Scenario 1 model: one wall with an attached volume quantity of value
5.0 in a millimeter model (length scale 1/1000). -/
def mmQuantity : Quantity :=
  { isVolumeQuantity := true, volumeValueAttr := some (some (QVal.num 5)), volumeAttr := none }

def mmWallEntity : Entity :=
  { globalId := some ("W1")
    ifcType := ("IfcWall")
    superTypes := [("IfcProduct")]
    nameAttr := some ("W")
    longNameAttr := none
    objectTypeAttr := none
    predefinedTypeAttr := none
    isDefinedBy :=
      [{ relatingPropertyDefinition := some { isElementQuantity := true, quantities := [mmQuantity] } }] }

def mmWallModel : Model :=
  { entities := [mmWallEntity], containmentRels := [], lengthScale := (1 : ℚ)/1000 }

/-- An element whose first volume quantity carries a value float() rejects. -/
def badVolEntity : Entity :=
  { globalId := some ("B1")
    ifcType := ("IfcWall")
    superTypes := [("IfcProduct")]
    nameAttr := none
    longNameAttr := none
    objectTypeAttr := none
    predefinedTypeAttr := none
    isDefinedBy :=
      [{ relatingPropertyDefinition := some
          { isElementQuantity := true
            quantities := [{ isVolumeQuantity := true, volumeValueAttr := some (some QVal.nonNumeric), volumeAttr := none }] } }] }

def badVolModel : Model :=
  { entities := [badVolEntity], containmentRels := [], lengthScale := 1 }

/-- Modelled failing input for the storey-map scan: a containment
relationship whose RelatingStructure is absent. -/
def badRelModel : Model :=
  { entities := []
    containmentRels := [{ relatingStructure := none, relatedGlobalIds := [some ("E1")] }]
    lengthScale := 1 }

/-- A present relating structure all of whose attributes are null. -/
def tolerantStorey : Storey :=
  { nameAttr := none, longNameAttr := none, globalId := none }

def tolerantModel : Model :=
  { entities := []
    containmentRels := [{ relatingStructure := some tolerantStorey, relatedGlobalIds := [some ("E1")] }]
    lengthScale := 1 }

def tolerantMap : SMap :=
  insertRelated (("Storey_None")) [some ("E1")] (fun _ => none)

/-- A model whose only entity is a spatial storey: nothing matches the
allowlist and the catch-all skips it. -/
def storeyOnlyEntity : Entity :=
  { globalId := some ("S1")
    ifcType := ("IfcBuildingStorey")
    superTypes := [("IfcSpatialStructureElement"), ("IfcProduct")]
    nameAttr := some ("L1")
    longNameAttr := none
    objectTypeAttr := none
    predefinedTypeAttr := none
    isDefinedBy := [] }

def storeyOnlyModel : Model :=
  { entities := [storeyOnlyEntity], containmentRels := [], lengthScale := 1 }

/-- A physical product entity whose type tag begins with IfcBuilding without
being a spatial container. -/
def proxyEntity : Entity :=
  { globalId := some ("P1")
    ifcType := ("IfcBuildingElementProxy")
    superTypes := [("IfcElement"), ("IfcProduct")]
    nameAttr := some ("Proxy")
    longNameAttr := none
    objectTypeAttr := none
    predefinedTypeAttr := none
    isDefinedBy := [] }

def proxyModel : Model :=
  { entities := [proxyEntity], containmentRels := [], lengthScale := 1 }

/-- Two containment relationships both naming element E1: the second storey
label must win. -/
def slabE1 : Entity :=
  { globalId := some ("E1")
    ifcType := ("IfcSlab")
    superTypes := [("IfcBuildingElement"), ("IfcProduct")]
    nameAttr := some ("S")
    longNameAttr := none
    objectTypeAttr := none
    predefinedTypeAttr := none
    isDefinedBy := [] }

def twoRelModel : Model :=
  { entities := [slabE1]
    containmentRels :=
      [{ relatingStructure := some { nameAttr := some ("L1"), longNameAttr := none, globalId := some ("S1") }
         relatedGlobalIds := [some ("E1")] },
       { relatingStructure := some { nameAttr := some ("L2"), longNameAttr := none, globalId := some ("S2") }
         relatedGlobalIds := [some ("E1")] }]
    lengthScale := 1 }

def twoRelMap : SMap :=
  insertRelated (("L2")) [some ("E1")] (insertRelated (("L1")) [some ("E1")] (fun _ => none))

/-- An entity with Name, ObjectType, PredefinedType all null but a non-null
LongName. -/
def longNameEntity : Entity :=
  { globalId := some ("N1")
    ifcType := ("IfcWall")
    superTypes := [("IfcProduct")]
    nameAttr := none
    longNameAttr := some ("LongLabel")
    objectTypeAttr := none
    predefinedTypeAttr := none
    isDefinedBy := [] }

def longNameModel : Model :=
  { entities := [longNameEntity], containmentRels := [], lengthScale := 1 }

def longNameRow : Row :=
  { GlobalId := some ("N1"), ifcClassName := ("IfcWall"), TypeName := ("")
    Name := ("LongLabel"), Level := none, Volume_m3 := none }

/-- A bare entity with all four descriptive attributes null. -/
def bareEntity : Entity :=
  { globalId := none
    ifcType := ("IfcWall")
    superTypes := [("IfcProduct")]
    nameAttr := none
    longNameAttr := none
    objectTypeAttr := none
    predefinedTypeAttr := none
    isDefinedBy := [] }

def bareModel : Model :=
  { entities := [bareEntity], containmentRels := [], lengthScale := 1 }

/-- An accumulated row with null identity and a distinct entity that also
has null identity, for the catch-all dedup interplay. -/
def nullRow : Row :=
  { GlobalId := none, ifcClassName := ("IfcWall"), TypeName := ("")
    Name := ("A"), Level := none, Volume_m3 := none }

def nullDoorEntity : Entity :=
  { globalId := none
    ifcType := ("IfcDoor")
    superTypes := [("IfcElement"), ("IfcProduct")]
    nameAttr := some ("D")
    longNameAttr := none
    objectTypeAttr := none
    predefinedTypeAttr := none
    isDefinedBy := [] }

/-- A sort witness model: a wall and a slab, the slab carrying a containment
level; pre-sort order puts the wall first (allowlist order), the sorted
table puts the slab first (IfcSlab sorts before IfcWall). -/
def sortWallEntity : Entity :=
  { globalId := some ("SW")
    ifcType := ("IfcWall")
    superTypes := [("IfcProduct")]
    nameAttr := some ("W")
    longNameAttr := none
    objectTypeAttr := none
    predefinedTypeAttr := none
    isDefinedBy := [] }

def sortSlabEntity : Entity :=
  { globalId := some ("SS")
    ifcType := ("IfcSlab")
    superTypes := [("IfcProduct")]
    nameAttr := some ("S")
    longNameAttr := none
    objectTypeAttr := none
    predefinedTypeAttr := none
    isDefinedBy := [] }

def sortModel : Model :=
  { entities := [sortWallEntity, sortSlabEntity]
    containmentRels :=
      [{ relatingStructure := some { nameAttr := some ("L1"), longNameAttr := none, globalId := some ("S1") }
         relatedGlobalIds := [some ("SS")] }]
    lengthScale := 1 }

def sortWallRow : Row :=
  { GlobalId := some ("SW"), ifcClassName := ("IfcWall"), TypeName := ("")
    Name := ("W"), Level := none, Volume_m3 := none }

def sortSlabRow : Row :=
  { GlobalId := some ("SS"), ifcClassName := ("IfcSlab"), TypeName := ("")
    Name := ("S"), Level := some ("L1"), Volume_m3 := none }

def mmWallRow : Row :=
  { GlobalId := some ("W1"), ifcClassName := ("IfcWall"), TypeName := ("")
    Name := ("W"), Level := none, Volume_m3 := some ((5 : ℚ) * ((1 : ℚ)/1000) ^ 3) }

def twoRelRow : Row :=
  { GlobalId := some ("E1"), ifcClassName := ("IfcSlab"), TypeName := ("")
    Name := ("S"), Level := some ("L2"), Volume_m3 := none }

/-- Inversion of a successful extraction: the storey map succeeded and the
output is the sorted row list (which was necessarily nonempty, or the pandas
column access would have raised). -/
lemma extract_elements_ok {m : Model} {out : List Row}
    (h : extract_elements m = Except.ok out) :
    ∃ sm, build_storey_map m = Except.ok sm ∧ out = sortRows (allRows m sm) := by
  unfold extract_elements at h
  split at h
  · cases h
  · rename_i sm hb
    split at h
    · cases h
    · rename_i r rest ha
      exact ⟨sm, hb, by rw [ha]; exact (Except.ok.inj h).symm⟩

/-- A successful storey map and a nonempty collected row list give a
successful extraction of the sorted rows. -/
lemma extract_elements_eq_ok {m : Model} {sm : SMap}
    (hb : build_storey_map m = Except.ok sm) (hne : allRows m sm ≠ []) :
    extract_elements m = Except.ok (sortRows (allRows m sm)) := by
  unfold extract_elements
  rw [hb]
  show (match allRows m sm with
    | [] => Except.error ()
    | r :: rest => Except.ok (sortRows (r :: rest))) =
      Except.ok (sortRows (allRows m sm))
  cases ha : allRows m sm with
  | nil => exact absurd ha hne
  | cons r rest => rfl

/-! The claims. -/

/-- Claim C1, counterexample: the output table can contain two records
sharing the same non-null identity.  A single IfcWallStandardCase entity is
returned by by_type both for the IfcWall tag and for the IfcWallStandardCase
tag of the curated allowlist, and the curated sweep (lines 72-92) appends
unconditionally, with no duplicate check; the whole output consists of two
identical records with GlobalId W1. -/
theorem C1_counterexample :
    extract_elements dupWallModel = Except.ok [dupWallRow, dupWallRow] ∧
    dupWallRow.GlobalId = some ("W1") :=
  ⟨rfl, rfl⟩

/-- Claim C1 (amended): uniqueness by identity holds across the catch-all
boundary — every row the catch-all sweep appends has an identity distinct
from every curated-sweep row and from every other catch-all row — but within
the curated sweep an entity whose declared type matches more than one
allowlist tag is duplicated, one record per matching tag; whenever the
assembly produces an output table, that table is a permutation of the
curated rows followed by the fresh catch-all rows. -/
theorem C1_uniqueness_only_across_catchall :
    ∀ (m : Model) (sm : SMap), build_storey_map m = Except.ok sm →
      ∃ extra : List Row,
        allRows m sm = curatedSweepRows m sm ++ extra ∧
        (∀ r ∈ extra, ∀ r2 ∈ curatedSweepRows m sm, r.GlobalId ≠ r2.GlobalId) ∧
        extra.Pairwise (fun a b => a.GlobalId ≠ b.GlobalId) ∧
        (∀ out, extract_elements m = Except.ok out →
          out.Perm (curatedSweepRows m sm ++ extra)) := by
  intro m sm h
  obtain ⟨extra, h1, h2, h3, _⟩ :=
    catchAllSweep_append m sm (by_type m ("IfcProduct")) (curatedSweepRows m sm)
  have h1a : allRows m sm = curatedSweepRows m sm ++ extra := h1
  refine ⟨extra, h1a, h2, h3, ?_⟩
  intro out hout
  obtain ⟨sm2, hb2, hout2⟩ := extract_elements_ok hout
  have hsm : sm2 = sm := Except.ok.inj (hb2.symm.trans h)
  subst hsm
  subst hout2
  rw [h1a]
  exact sortRows_perm _

/-- Claim C1 witness: the amended statement instantiated at the
duplicate-wall model. -/
theorem C1_witness :
    ∃ extra : List Row,
      allRows dupWallModel (fun _ => none) =
        curatedSweepRows dupWallModel (fun _ => none) ++ extra ∧
      (∀ r ∈ extra, ∀ r2 ∈ curatedSweepRows dupWallModel (fun _ => none),
        r.GlobalId ≠ r2.GlobalId) ∧
      extra.Pairwise (fun a b => a.GlobalId ≠ b.GlobalId) ∧
      (∀ out, extract_elements dupWallModel = Except.ok out →
        out.Perm (curatedSweepRows dupWallModel (fun _ => none) ++ extra)) :=
  C1_uniqueness_only_across_catchall dupWallModel (fun _ => none) rfl

/-- Claim C2: whenever the quantity-set scan finds a first volume quantity
with numeric value v, the computed volume is v times the cube of the model's
length unit scale (lines 43-48); the value is read from the VolumeValue
attribute when it exists, else from the Volume attribute (lines 38-41). -/
theorem C2_volume_normalization :
    (∀ (e : Entity) (m : Model) (v : ℚ),
      (volumeQVals e).head? = some (QVal.num v) →
      get_volume_from_quantities e m = some (v * m.lengthScale ^ 3)) ∧
    (∀ (b : Bool) (x : QVal) (va : Option (Option QVal)),
      qValOf { isVolumeQuantity := b, volumeValueAttr := some (some x), volumeAttr := va } =
        some x) ∧
    (∀ (b : Bool) (x : QVal),
      qValOf { isVolumeQuantity := b, volumeValueAttr := none, volumeAttr := some (some x) } =
        some x) := by
  refine ⟨?_, ?_, ?_⟩
  · intro e m v h
    rw [get_volume_eq, h]
  · intro b x va; rfl
  · intro b x; rfl

/-- Claim C2 witness: the millimeter wall scenario.  The record's volume is
5 times (1/1000) cubed, which is 5e-9 cubic meters. -/
theorem C2_witness :
    get_volume_from_quantities mmWallEntity mmWallModel =
      some ((5 : ℚ) * ((1 : ℚ)/1000) ^ 3) ∧
    (5 : ℚ) * ((1 : ℚ)/1000) ^ 3 = 1/200000000 ∧
    extract_elements mmWallModel = Except.ok [mmWallRow] :=
  ⟨C2_volume_normalization.1 mmWallEntity mmWallModel 5 rfl, by norm_num, rfl⟩

/-- Claim C3: evaluation at the failing input.  The claim (the spec's
Scenario 3) is the evident intent, but the code violates it: at a model
with zero matching entities and a well-formed (here empty) containment
scan, zero rows are collected, pd.DataFrame of the empty list has no
columns, and the column access at line 120 raises KeyError — the program
crashes instead of returning a zero-record table with non-null-volume
count 0. -/
theorem C3_empty_table_keyerror :
    build_storey_map storeyOnlyModel = Except.ok (fun _ => none) ∧
    curatedSweepRows storeyOnlyModel (fun _ => none) = [] ∧
    allRows storeyOnlyModel (fun _ => none) = [] ∧
    extract_elements storeyOnlyModel = Except.error () :=
  ⟨rfl, rfl, rfl, rfl⟩

/-- Claim C4: evaluation at the failing input.  An IfcBuildingElementProxy
entity is a physical product (it is enumerated by the IfcProduct sweep and
is not a spatial container), yet line 98's prefix test
is_a().startswith(IfcBuilding) matches it, so it is skipped on type grounds
against the claim (and the code's own comment, line 97, which says only
spatial elements are skipped): no record is collected for it, and the run
then even crashes on the resulting empty row list (KeyError, line 120). -/
theorem C4_proxy_skipped_eval :
    by_type proxyModel ("IfcProduct") = [proxyEntity] ∧
    pyStartsWith proxyEntity.ifcType ("IfcBuilding") = true ∧
    isSpatialSkipped proxyEntity = true ∧
    allRows proxyModel (fun _ => none) = [] ∧
    extract_elements proxyModel = Except.error () :=
  ⟨rfl, rfl, rfl, rfl, rfl⟩

/-- Claim C5, counterexample: build_storey_map does let an exception
propagate.  On a containment relationship whose relating structure is
absent, both getattr fallbacks at line 21 yield None and the f-string then
evaluates None.GlobalId, raising AttributeError; the record is not skipped
and no map is returned. -/
theorem C5_counterexample :
    build_storey_map badRelModel = Except.error () :=
  rfl

/-- Claim C5 (amended): build_storey_map returns a map for every model whose
containment relationships all carry a present relating structure; within a
present structure, missing Name, LongName, and GlobalId attributes are
tolerated by the fallback chain (ending in the synthesized label
Storey_None when even GlobalId is null). -/
theorem C5_no_failure_when_structures_present :
    ∀ (m : Model),
      (∀ rel ∈ m.containmentRels, rel.relatingStructure ≠ none) →
      ∃ sm, build_storey_map m = Except.ok sm :=
  fun m h => build_storey_map_go_ok m.containmentRels (fun _ => none) h

/-- Claim C5 witness: a relationship whose present structure has every
attribute null is tolerated, mapping its related element to Storey_None. -/
theorem C5_witness :
    build_storey_map tolerantModel = Except.ok tolerantMap ∧
    tolerantMap (some ("E1")) = some ("Storey_None") := by
  obtain ⟨sm, hsm⟩ := C5_no_failure_when_structures_present tolerantModel (by decide)
  exact ⟨rfl, rfl⟩

/-- Claim C6: get_volume_from_quantities is decided by the first volume
quantity value in traversal order of the IsDefinedBy relationships (no
aggregation), is null when none exists, and converts the modelled per-element
error (a value on which float() raises, caught at lines 49-50) to null; an
erring scan yields null, and a malformed element never makes extraction
fail: whenever the storey map succeeded and at least one row was collected
(failures come only from those two sources, never from an element's
quantities), extraction returns the sorted table. -/
theorem C6_first_match_and_error_policy :
    (∀ (e : Entity) (m : Model),
      get_volume_from_quantities e m =
        match (volumeQVals e).head? with
        | some (QVal.num v) => some (v * m.lengthScale ^ 3)
        | some QVal.nonNumeric => none
        | none => none) ∧
    (∀ (e : Entity) (m : Model),
      scanDefRels m e.isDefinedBy = Except.error () →
      get_volume_from_quantities e m = none) ∧
    (∀ (m : Model) (sm : SMap), build_storey_map m = Except.ok sm →
      allRows m sm ≠ [] →
      extract_elements m = Except.ok (sortRows (allRows m sm))) := by
  refine ⟨get_volume_eq, ?_, ?_⟩
  · intro e m h
    unfold get_volume_from_quantities
    rw [h]
  · intro m sm h hne
    exact extract_elements_eq_ok h hne

/-- Claim C6 witness: an element whose first volume quantity carries a
non-numeric value errs in the scan, gets a null volume, and extraction of
its model (which still collects that element's row) succeeds. -/
theorem C6_witness :
    scanDefRels badVolModel badVolEntity.isDefinedBy = Except.error () ∧
    get_volume_from_quantities badVolEntity badVolModel = none ∧
    extract_elements badVolModel =
      Except.ok (sortRows (allRows badVolModel (fun _ => none))) :=
  ⟨rfl, C6_first_match_and_error_policy.2.1 badVolEntity badVolModel rfl,
    C6_first_match_and_error_policy.2.2 badVolModel (fun _ => none) rfl (by decide)⟩

/-- Claim C7: the output table is sorted ascending by the key
(class, level, name) with nulls last — every adjacent pair is related by
rowLe — and the sort is stable: for every concrete key, the output rows
carrying that key are exactly the pre-sort rows carrying it, in the same
order. -/
theorem C7_sorted_and_stable :
    ∀ (m : Model) (out : List Row),
      extract_elements m = Except.ok out →
      List.Chain' rowLe out ∧
      ∃ sm, build_storey_map m = Except.ok sm ∧
        out.Perm (allRows m sm) ∧
        (∀ k : String × Option String × String,
          out.filter (fun r => decide (sortKeyTriple r = k)) =
            (allRows m sm).filter (fun r => decide (sortKeyTriple r = k))) := by
  intro m out h
  obtain ⟨sm, hb, hout⟩ := extract_elements_ok h
  subst hout
  exact ⟨(sortRows_sorted _).chain', sm, hb, sortRows_perm _,
    fun k => filter_triple_sortRows _ k⟩

/-- Claim C7 witness: the wall-and-slab model; the slab row sorts first. -/
theorem C7_witness :
    extract_elements sortModel = Except.ok [sortSlabRow, sortWallRow] ∧
    List.Chain' rowLe [sortSlabRow, sortWallRow] :=
  ⟨rfl, (C7_sorted_and_stable sortModel [sortSlabRow, sortWallRow] rfl).1⟩

/-- Claim C8: the storey map sends each identity to the label of the last
containment relationship (in scan order) that mentions it, so the label of
the last relationship scanned wins; every record's level is the storey-map
lookup of its own identity; and the label is resolved in priority order:
Name when non-null and non-empty, else LongName when non-null and
non-empty, else the synthesized Storey_ prefix on the structure's
identity. -/
theorem C8_level_last_relationship_wins :
    ∀ (m : Model) (sm : SMap), build_storey_map m = Except.ok sm →
      (∀ g : Option String,
        sm g =
          match m.containmentRels.reverse.find?
              (fun rel => rel.relatedGlobalIds.contains g) with
          | some rel => rel.relatingStructure.map storeyLabel
          | none => none) ∧
      (∀ r ∈ allRows m sm, r.Level = sm r.GlobalId) ∧
      (∀ (s : Storey) (n : String), s.nameAttr = some n → n ≠ ("") →
        storeyLabel s = n) ∧
      (∀ (s : Storey) (ln : String), (s.nameAttr = none ∨ s.nameAttr = some ("")) →
        s.longNameAttr = some ln → ln ≠ ("") → storeyLabel s = ln) ∧
      (∀ (s : Storey) (g : String), (s.nameAttr = none ∨ s.nameAttr = some ("")) →
        (s.longNameAttr = none ∨ s.longNameAttr = some ("")) → s.globalId = some g →
        storeyLabel s = ("Storey_") ++ g) := by
  intro m sm h
  refine ⟨?_, allRows_level m sm, ?_, ?_, ?_⟩
  · intro g
    have := build_storey_map_go_lookup m.containmentRels (fun _ => none) sm g h
    rw [this]
  · intro s n hn hne
    simp [storeyLabel, pyOrStr, hn, hne]
  · intro s ln hn hln hlne
    rcases hn with hn | hn <;> simp [storeyLabel, pyOrStr, hn, hln, hlne]
  · intro s g hn hln hg
    rcases hn with hn | hn <;> rcases hln with hln | hln <;>
      simp [storeyLabel, pyOrStr, pyShowOpt, hn, hln, hg]

/-- Claim C8 witness: element E1 appears in two containment relationships
(storeys L1 then L2); the scan's last label L2 wins and the element's
record carries level L2. -/
theorem C8_witness :
    build_storey_map twoRelModel = Except.ok twoRelMap ∧
    twoRelMap (some ("E1")) = some ("L2") ∧
    extract_elements twoRelModel = Except.ok [twoRelRow] ∧
    twoRelRow.Level = some ("L2") := by
  have h := (C8_level_last_relationship_wins twoRelModel twoRelMap rfl).1 (some ("E1"))
  exact ⟨rfl, h.trans rfl, rfl, rfl⟩

/-- Claim C9, counterexample: an entity whose Name, ObjectType, and
PredefinedType are all null but whose LongName is non-null produces a record
whose name is the LongName, not the empty string, because the fallback chain
at lines 76 and 105 is Name or LongName or the empty string. -/
theorem C9_counterexample :
    longNameEntity.nameAttr = none ∧ longNameEntity.objectTypeAttr = none ∧
    longNameEntity.predefinedTypeAttr = none ∧
    extract_elements longNameModel = Except.ok [longNameRow] ∧
    longNameRow.Name = ("LongLabel") ∧ ¬ longNameRow.Name = ("") :=
  ⟨rfl, rfl, rfl, rfl, rfl, by decide⟩

/-- Claim C9 (amended): an entity whose Name, LongName, ObjectType, and
PredefinedType are all missing still produces a record with empty name and
empty type_name, in both sweeps; and every entity enumerated under an
allowlisted tag — including one with a null identity — contributes its
record without causing a failure. -/
theorem C9_graceful_degradation :
    (∀ (m : Model) (sm : SMap) (e : Entity),
      e.nameAttr = none → e.longNameAttr = none → e.objectTypeAttr = none →
      e.predefinedTypeAttr = none →
      (mkCuratedRow m sm e).Name = ("") ∧ (mkCuratedRow m sm e).TypeName = ("") ∧
      (mkCatchAllRow m sm e).Name = ("") ∧ (mkCatchAllRow m sm e).TypeName = ("")) ∧
    (∀ (m : Model) (sm : SMap) (t : String) (e : Entity),
      t ∈ candidate_types → e ∈ by_type m t →
      mkCuratedRow m sm e ∈ curatedSweepRows m sm) := by
  refine ⟨?_, mem_curatedSweepRows⟩
  intro m sm e h1 h2 h3 h4
  refine ⟨?_, ?_, ?_, ?_⟩ <;>
    simp [mkCuratedRow, mkCatchAllRow, pyOrStr, h1, h2, h3, h4]

/-- Claim C9 witness: a bare entity (all four descriptive attributes null,
identity null) yields an empty name and type_name and its record is in the
curated sweep output. -/
theorem C9_witness :
    (mkCuratedRow bareModel (fun _ => none) bareEntity).Name = ("") ∧
    (mkCuratedRow bareModel (fun _ => none) bareEntity).TypeName = ("") ∧
    mkCuratedRow bareModel (fun _ => none) bareEntity ∈
      curatedSweepRows bareModel (fun _ => none) ∧
    (mkCuratedRow bareModel (fun _ => none) bareEntity).GlobalId = none := by
  have h := C9_graceful_degradation.1 bareModel (fun _ => none) bareEntity rfl rfl rfl rfl
  exact ⟨h.1, h.2.1,
    C9_graceful_degradation.2 bareModel (fun _ => none) ("IfcWall") bareEntity
      (by decide) (by decide), rfl⟩

/-- Claim C10: once any accumulated row carries a null identity, the
catch-all sweep appends no further null-identity rows (the dedup check at
line 102 compares raw identities and Python None equals None), so the
null-identity rows after the catch-all sweep are exactly those accumulated
before it; the curated sweep, by contrast, performs no such check — its row
count equals the total entity count of the allowlist enumerations, null
identities included. -/
theorem C10_null_identity_dedup :
    (∀ (m : Model) (sm : SMap) (rows : List Row) (es : List Entity),
      (∃ r ∈ rows, r.GlobalId = none) →
      (catchAllSweep m sm rows es).filter (fun r => r.GlobalId.isNone) =
        rows.filter (fun r => r.GlobalId.isNone)) ∧
    (∀ (m : Model) (sm : SMap),
      (curatedSweepRows m sm).length =
        (candidate_types.map (fun t => (by_type m t).length)).sum) :=
  ⟨fun m sm rows es h => catchAllSweep_filter_none m sm es rows h,
    curatedSweepRows_length⟩

/-- Claim C10 witness: with a null-identity row already accumulated, a
distinct null-identity door entity is silently dropped by the catch-all
sweep. -/
theorem C10_witness :
    catchAllSweep bareModel (fun _ => none) [nullRow] [nullDoorEntity] = [nullRow] ∧
    (catchAllSweep bareModel (fun _ => none) [nullRow] [nullDoorEntity]).filter
      (fun r => r.GlobalId.isNone) = [nullRow] := by
  have h := C10_null_identity_dedup.1 bareModel (fun _ => none) [nullRow] [nullDoorEntity]
    ⟨nullRow, List.mem_singleton_self _, rfl⟩
  exact ⟨rfl, h.trans rfl⟩

end IfcApp
